import Mathlib

/-!
Shallow embedding of `src/app.py`: a per-ticker stock-analysis pipeline that
combines market facts from a quote provider with AI-generated enrichment and
the previous run's persisted records.

Conventions used throughout:
* Python floats are modelled as `ℚ`; decimal formatting (`f"{x:+.2f}"` and
  `round(x, 2)`) rounds ties to even, matching CPython's float formatting.
* A fallible external call is `Except Unit α` (`.error ()` = the call raised).
* A raised-and-caught Python exception is the `.error` branch of the
  surrounding modelled computation.
* JSON values (`json.loads` results, persisted records) are the `JVal` type.
-/

/-- Numeric value of a decimal digit character, `none` for a non-digit. -/
def digitVal (c : Char) : Option ℕ :=
  if c.isDigit then some (c.toNat - 48) else none

/-- Value of a digit string (most significant first); `none` if any character
is not a digit.  The empty list gives `some 0`; callers check emptiness. -/
def digitsVal (l : List Char) : Option ℕ :=
  l.foldl (fun acc c =>
    match acc, digitVal c with
    | some a, some d => some (a * 10 + d)
    | _, _ => none) (some 0)

/-- Python `str.replace(pat, rep)` on character lists: scan left to right,
replacing non-overlapping occurrences.  `fuel` bounds the recursion by the
length of the scanned list (one unit per consumed character). -/
def replaceCore (pat rep : List Char) : ℕ → List Char → List Char
  | _, [] => []
  | 0, l => l
  | n + 1, c :: rest =>
      if pat ≠ [] ∧ pat.isPrefixOf (c :: rest)
      then rep ++ replaceCore pat rep n ((c :: rest).drop pat.length)
      else c :: replaceCore pat rep n rest

/-- Python `s.replace(pat, rep)` (all occurrences, left to right). -/
def pyReplace (s pat rep : String) : String :=
  ⟨replaceCore pat.data rep.data s.data.length s.data⟩

/-- Python `s.strip()` : remove leading and trailing whitespace. -/
def pyStrip (s : String) : String :=
  ⟨((s.data.dropWhile Char.isWhitespace).reverse.dropWhile Char.isWhitespace).reverse⟩

/-- Python `s.strip(c)` for a single character: remove leading and trailing
copies of `c`. -/
def pyStripChar (c : Char) (s : String) : String :=
  ⟨((s.data.dropWhile (· = c)).reverse.dropWhile (· = c)).reverse⟩

/-- Python `s.upper()` (ASCII letters; ticker ids are ASCII). -/
def pyUpper (s : String) : String :=
  ⟨s.data.map Char.toUpper⟩

/-- Substring test: does `pat` occur inside `l`?  Models Python `pat in s`. -/
def subOccurs (pat : List Char) : List Char → Bool
  | [] => pat.isEmpty
  | c :: rest => pat.isPrefixOf (c :: rest) || subOccurs pat rest

/-- Python `pat in s` on strings. -/
def strContains (s pat : String) : Bool :=
  subOccurs pat.data s.data

/-- Code-point comparison of strings, `lexLe a b` iff `a ≤ b` in the
lexicographic order Python uses to sort strings. -/
def lexLe : List Char → List Char → Bool
  | [], _ => true
  | _ :: _, [] => false
  | a :: as, b :: bs =>
      if a.toNat < b.toNat then true
      else if b.toNat < a.toNat then false
      else lexLe as bs

/-- Relation used to sort model identifiers in descending order
(`all_models.sort(reverse=True)` in the source). -/
def strGe (a b : String) : Prop := lexLe b.data a.data = true

instance : DecidableRel strGe := fun a b => by unfold strGe; infer_instance

/-- Floor division of an integer by a positive natural number. -/
def floorDiv (n : ℤ) (d : ℕ) : ℤ := Int.fdiv n d

/-- Round `n / d` (with `d > 0`) to the nearest integer, ties to even —
the rounding CPython applies when formatting a float with `%.2f`. -/
def halfEvenDiv (n : ℤ) (d : ℕ) : ℤ :=
  let f := floorDiv n d
  let r := n - f * d
  if 2 * r < (d : ℤ) then f
  else if (d : ℤ) < 2 * r then f + 1
  else if f % 2 = 0 then f else f + 1

/-- Cents (hundredths) of a rational, rounded half to even: the integer
`c` such that `c / 100` is `q` rounded to two decimal places. -/
def round2cents (q : ℚ) : ℤ := halfEvenDiv (q.num * 100) q.den

/-- Python `round(x, 2)` as a rational. -/
def round2q (q : ℚ) : ℚ := (round2cents q : ℚ) / 100

/-- Render a natural number in decimal. -/
def natStr (n : ℕ) : String := Nat.repr n

/-- Two-digit zero-padded decimal rendering (for `%m` and cent digits). -/
def pad2 (n : ℕ) : String := if n < 10 then "0" ++ natStr n else natStr n

/-- Four-digit zero-padded decimal rendering (for `%Y`). -/
def pad4 (n : ℕ) : String :=
  if n < 10 then "000" ++ natStr n
  else if n < 100 then "00" ++ natStr n
  else if n < 1000 then "0" ++ natStr n
  else natStr n

/-- Decimal rendering of a magnitude given in cents: `1985 ↦ "19.85"`. -/
def centsStr (a : ℕ) : String := natStr (a / 100) ++ "." ++ pad2 (a % 100)

/-- Python `f"{x:+.2f}"`: two decimal places with a mandatory sign. -/
def fmtSigned2 (q : ℚ) : String :=
  let c := round2cents q
  (if c < 0 then "-" else "+") ++ centsStr c.natAbs

/-- Python `f"{x:.2f}"`: two decimal places, sign only when negative. -/
def fmt2 (q : ℚ) : String :=
  let c := round2cents q
  (if c < 0 then "-" else "") ++ centsStr c.natAbs

/-- Python `float(s)` for plain decimal strings (optional sign, optional
fractional part).  `none` models `ValueError`.  Exponent and special forms
are not produced by this program and are out of the model. -/
def parseFloatQ (s : String) : Option ℚ :=
  let l := s.data
  let sgn : ℚ := if l.head? = some '-' then -1 else 1
  let l1 := if l.head? = some '-' ∨ l.head? = some '+' then l.drop 1 else l
  let ip := l1.takeWhile (fun c => c ≠ '.')
  let rest := l1.dropWhile (fun c => c ≠ '.')
  let fp := rest.drop 1
  if ip = [] ∧ fp = [] then none
  else
    match digitsVal ip, digitsVal fp with
    | some i, some f =>
        if rest = [] then some (sgn * i)
        else some (sgn * ((i : ℚ) + (f : ℚ) / (10 : ℚ) ^ fp.length))
    | _, _ => none

/-- Month label `d.strftime('%Y-%m')` from a (year, month) pair. -/
def fmtYM (ym : ℕ × ℕ) : String := pad4 ym.1 ++ "-" ++ pad2 ym.2

-- quick sanity examples (structural, evaluated by the kernel)
example : pyReplace "models/gemini-1.5-pro" "models/" "" = "gemini-1.5-pro" := rfl
example : pyReplace "2330.TW" ".TW" "" = "2330" := rfl
example : pyStrip "  d " = "d" := rfl
example : pyUpper "d" = "D" := rfl
example : pyStripChar '%' "+1.85%" = "+1.85" := rfl
example : strContains "gemini-exp-1206" "exp" = true := rfl
example : strContains "gemini-1.5-pro" "exp" = false := rfl
example : halfEvenDiv 5000 27 = 185 := rfl
example : fmtYM (2024, 3) = "2024-03" := rfl
example : parseFloatQ "0" = some ((1 : ℚ) * (0 : ℕ)) := rfl

/-! JSON values, as produced by `json.loads` and stored in `data.json`. -/

/-- A JSON value.  Python dicts keep insertion order, so objects are
association lists; `json.loads` produces unique keys. -/
inductive JVal where
  | str : String → JVal
  | num : ℚ → JVal
  | bool : Bool → JVal
  | null : JVal
  | arr : List JVal → JVal
  | obj : List (String × JVal) → JVal

/-- Python `d.get(k, dflt)`: key lookup with default on a dict, and an
`AttributeError` (modelled as `.error ()`) on any non-dict value. -/
def dictGet (j : JVal) (k : String) (dflt : JVal) : Except Unit JVal :=
  match j with
  | .obj kvs => .ok ((kvs.lookup k).getD dflt)
  | _ => .error ()

/-- Field of a JSON object, `none` when absent or not an object. -/
def jfield (j : JVal) (k : String) : Option JVal :=
  match j with
  | .obj kvs => kvs.lookup k
  | _ => none

/-- Python truthiness of a JSON value. -/
def jTruthy : JVal → Bool
  | .obj kvs => !kvs.isEmpty
  | .arr xs => !xs.isEmpty
  | .str s => !s.isEmpty
  | .num q => q ≠ 0
  | .bool b => b
  | .null => false

/-- Python `k in j`: key test on dicts, membership on lists, substring on
strings, `TypeError` (`none`) on numbers, booleans and `None`. -/
def jContains (j : JVal) (k : String) : Option Bool :=
  match j with
  | .obj kvs => some (kvs.any (fun p => p.1 == k))
  | .arr xs => some (xs.any (fun x => match x with | .str s => s == k | _ => false))
  | .str s => some (strContains s k)
  | _ => none

/-! Model catalog builder (`get_best_models` in the source). -/

/-- One entry of `genai.list_models()`. -/
structure ModelInfo where
  name : String
  supported_generation_methods : List String

/-- Fallback list used on discovery failure or an empty computed list. -/
def MODEL_DEFAULTS : List String := ["models/gemini-1.5-pro", "models/gemini-1.5-flash"]

/-- `get_best_models()`.  The one outbound discovery call is the argument:
`.error ()` when `genai.list_models()` (or anything in the `try`) raises. -/
def get_best_models (discovery : Except Unit (List ModelInfo)) : List String :=
  match discovery with
  | .error _ => MODEL_DEFAULTS
  | .ok ms =>
      let all_models := List.insertionSort strGe
        ((ms.filter (fun m => m.supported_generation_methods.contains "generateContent")).map
          (fun m => m.name))
      let exp := all_models.filter (fun m => strContains m "exp")
      let pro := all_models.filter (fun m => strContains m "pro" && !strContains m "exp")
      let flash := all_models.filter (fun m => strContains m "flash" && !strContains m "exp")
      let final_list := exp ++ pro ++ flash
      if final_list.isEmpty then MODEL_DEFAULTS else final_list

/-! Prompt template and `str.format`. -/

/-- One piece of a parsed Python format string: literal text (with `{{`/`}}`
already unescaped) or a `{key}` placeholder. -/
inductive Seg where
  | lit : String → Seg
  | ph : String → Seg
deriving DecidableEq

/-- Python `str.format` over a parsed format string: placeholders are
replaced by keyword arguments; a missing key is a `KeyError` (`none`);
unused keyword arguments are ignored. -/
def pyFormat (args : String → Option String) : List Seg → Option String
  | [] => some ""
  | Seg.lit s :: rest => (pyFormat args rest).map (fun r => s ++ r)
  | Seg.ph k :: rest =>
      match args k, pyFormat args rest with
      | some v, some r => some (v ++ r)
      | _, _ => none

/-- `PROMPT_TEMPLATE` of the source, parsed into literal runs and
placeholders.  The placeholders are exactly `name`, `stock_id`, `price`,
`change_pct` and `chart_dump`; there is none for `news_summary`. -/
def PROMPT_TEMPLATE : List Seg :=
  [ .lit "\n你是 bbb 專業分析師。請基於以下【絕對事實】補完分析報告。\n\n【鎖定事實 (API Data)】- **嚴禁修改數值**：\n- 股票：",
    .ph "name",
    .lit " (",
    .ph "stock_id",
    .lit ")\n- 現價：",
    .ph "price",
    .lit " (",
    .ph "change_pct",
    .lit ")\n- 歷史股價(供繪圖參考)：",
    .ph "chart_dump",
    .lit "\n\n【你的任務 (需聯網搜尋)】：\n1. **財務補完**：\n   - 營收：若本月尚未公布，請預估並標記 `is_estimate: true`。\n   - EPS：搜尋預估值，標記 `is_estimate: true`。\n   - 估值：依據歷史股價(實線)計算合理 PE 倍數區間(虛線)。\n2. **質性分析**：產業護城河、競爭者。\n3. **技術判讀**：給出 30/180/360 天價格預測與策略。\n\n請回傳 **純 JSON**，格式如下 (不要用 Markdown)：\n\x7b\n  \"industry\": \x7b \"moat_status\": \"..\", \"position_map\": \"..\", \"competitors\": \"..\" \x7d,\n  \"financials\": \x7b\n    \"eps_table\": [\n       \x7b \"period\": \"2024Q3\", \"gross_margin\": \"..\", \"eps\": \"事實\", \"cumulative\": \"..\", \"is_estimate\": false \x7d,\n       \x7b \"period\": \"2025Q1\", \"gross_margin\": \"..\", \"eps\": \"預估\", \"cumulative\": \"..\", \"is_estimate\": true \x7d\n    ],\n    \"revenue_trend\": [\n       \x7b \"month\": \"2024-11\", \"revenue\": \"..\", \"mom\": \"..\", \"yoy\": \"..\", \"is_estimate\": false \x7d\n    ],\n    \"valuation\": \x7b\n        \"pe_status\": \"..\", \"pb\": \"..\", \"roe\": \"..\",\n        \"pe_river_data\": \x7b\n            \"dates\": [], \"price\": [], \"pe20\": [], \"pe16\": [], \"pe12\": [] \n        \x7d\n    \x7d\n  \x7d,\n  \"technical\": \x7b\n    \"status\": \"..\", \"signal_light\": \"red_flash/green_flash/stable\", \n    \"analysis_text\": \"..\",\n    \"predictions\": \x7b \"days30\": \"..\", \"days180\": \"..\", \"days360\": \"..\", \"entry_zone\": \"..\" \x7d,\n    \"correction_c\": \"0.XX\",\n    \"bollinger\": \x7b \"status\": \"..\", \"description\": \"..\" \x7d\n  \x7d,\n  \"news_events\": \x7b\n    \"news\": [ \x7b \"date\": \"YYYY-MM-DD\", \"title\": \"..\", \"type\": \"positive/neutral/negative\", \"is_new\": true \x7d ],\n    \"calendar\": [ \x7b \"date\": \"YYYY-MM-DD\", \"event\": \"..\" \x7d ]\n  \x7d,\n  \"dividend\": \x7b \"yield\": \"..\", \"history_roi\": \"..\", \"future_roi\": \"..\" \x7d,\n  \"memo\": \"\"\n\x7d\n" ]

/-- Keyword arguments passed to `PROMPT_TEMPLATE.format(...)` in the
source; note that `news_summary` is passed even though the template has no
placeholder for it. -/
def promptArgs (name stock_id price change_pct chart_dump news_summary : String) :
    String → Option String :=
  fun k =>
    if k = "name" then some name
    else if k = "stock_id" then some stock_id
    else if k = "price" then some price
    else if k = "change_pct" then some change_pct
    else if k = "chart_dump" then some chart_dump
    else if k = "news_summary" then some news_summary
    else none

/-- The composed prompt (`PROMPT_TEMPLATE.format(...)`). -/
def composePrompt (name stock_id price change_pct chart_dump news_summary : String) :
    Option String :=
  pyFormat (promptArgs name stock_id price change_pct chart_dump news_summary) PROMPT_TEMPLATE

/-- Approximate `repr` of a two-decimal-rounded float, used only inside the
serialized chart (`json.dumps`) embedded in the prompt. -/
def qRepr (q : ℚ) : String :=
  let sign := if q < 0 then "-" else ""
  let a := q.num.natAbs * 100 / q.den
  let i := a / 100
  let f := a % 100
  sign ++ natStr i ++ "." ++
    (if f = 0 then "0" else if f % 10 = 0 then natStr (f / 10)
     else (if f < 10 then "0" ++ natStr f else natStr f))

/-- One `{"d": date, "p": price}` entry of the serialized chart. -/
def chartEntryStr (p : String × ℚ) : String :=
  "\x7b\"d\": \"" ++ p.1 ++ "\", \"p\": " ++ qRepr p.2 ++ "\x7d"

/-- `json.dumps(chart_data_for_ai)`. -/
def dumpChart (l : List (String × ℚ)) : String :=
  "[" ++ String.intercalate ", " (l.map chartEntryStr) ++ "]"

example : composePrompt "n" "s" "p" "c" "d" "x" = composePrompt "n" "s" "p" "c" "d" "y" := rfl
example : get_best_models (.error ()) = MODEL_DEFAULTS := rfl
example : get_best_models (.ok [⟨"models/a-pro", ["generateContent"]⟩, ⟨"models/b-exp", ["generateContent"]⟩, ⟨"models/zz", ["generateContent"]⟩]) = ["models/b-exp", "models/a-pro"] := by decide

/-! Per-ticker external world and AI configuration. -/

/-- Everything the external providers return for one ticker.
`fast` is `(fast_info.get('last_price', 0), fast_info.get('previous_close', 0))`,
`.error ()` when accessing `fast_info` raises.  `hist5` is the closes of the
5-day fallback window.  `news` items are (formatted date, title) pairs; a
raising news fetch is `.error ()` and yields an empty block.  `hist1y` is the
one-year daily history: ((year, month), close) in chronological order.
`info` is `(ticker.info.get('longName'), str(ticker.info.get('priceToBook')))`
with `.error ()` when accessing `ticker.info` raises (the dict is cached, so
both source-level accesses observe the same outcome).  `now` is the formatted
`datetime.now()` timestamp. -/
structure TickerEnv where
  fast : Except Unit (ℚ × ℚ)
  hist5 : Except Unit (List ℚ)
  news : Except Unit (List (String × String))
  hist1y : Except Unit (List ((ℕ × ℕ) × ℚ))
  info : Except Unit (Option String × Option String)
  now : String

/-- AI-side configuration: whether `GEMINI_API_KEY` is set, the
`MODEL_PRIORITY` list, the model invocation boundary (model id and prompt in,
response text or exception out) and the JSON parser (`json.loads`, `none`
modelling a parse exception or any non-JSON text). -/
structure Config where
  hasKey : Bool
  models : List String
  invoke : String → String → Except Unit String
  jparse : String → Option JVal

/-- Block A of `get_stock_data`: the quote `try` block.  Returns
(price, prev, change_pct).  On `fast_info` failure everything keeps its
initial value (price 0, change "0%").  When the last price is zero the 5-day
history fallback runs: an empty window changes nothing; a one-row window sets
price to its close but raises on `iloc[-2]`, so `prev` keeps the fast-info
previous close and the change string keeps its "0%" default.  The change
percent is computed only when both price and prev are truthy (non-zero). -/
def quoteBlock (env : TickerEnv) : ℚ × ℚ × String :=
  match env.fast with
  | .error _ => (0, 0, "0%")
  | .ok (lp, pc) =>
      if lp = 0 then
        match env.hist5 with
        | .error _ => (0, pc, "0%")
        | .ok closes =>
            match closes.reverse with
            | [] => (0, pc, "0%")
            | [x] => (x, pc, "0%")
            | x :: y :: _ =>
                (x, y, if x ≠ 0 ∧ y ≠ 0 then fmtSigned2 ((x - y) / y * 100) ++ "%" else "0%")
      else
        (lp, pc, if lp ≠ 0 ∧ pc ≠ 0 then fmtSigned2 ((lp - pc) / pc * 100) ++ "%" else "0%")

/-- Block B: the news summary.  Up to three items are rendered as
`- date: title\n`; any failure yields the empty block (the source catches
mid-loop exceptions, which can keep a partial block; items themselves are
modelled post-formatting, so the all-or-nothing simplification is the only
divergence and no downstream value depends on it). -/
def newsBlock (env : TickerEnv) : String :=
  match env.news with
  | .error _ => ""
  | .ok items =>
      ((items.take 3).map (fun p => "- " ++ p.1 ++ ": " ++ p.2 ++ "\n")).foldl (· ++ ·) ""

/-- `hist['Close'].resample('ME').last()`: last close of each month, in
order, for a chronologically sorted daily series (months are consecutive in
a sorted index, so consecutive grouping is calendar grouping). -/
def resampleME : List ((ℕ × ℕ) × ℚ) → List ((ℕ × ℕ) × ℚ)
  | [] => []
  | [kv] => [kv]
  | (k₁, v₁) :: (k₂, v₂) :: rest =>
      if k₁ = k₂ then resampleME ((k₂, v₂) :: rest)
      else (k₁, v₁) :: resampleME ((k₂, v₂) :: rest)

/-- pandas `.tail(n)`. -/
def tailN {α : Type _} (n : ℕ) (l : List α) : List α := l.drop (l.length - n)

/-- The most recent 12 month-end points of the one-year history. -/
def chartMonthly (rows : List ((ℕ × ℕ) × ℚ)) : List ((ℕ × ℕ) × ℚ) :=
  tailN 12 (resampleME rows)

/-- `chart_dates`: month labels `YYYY-MM` of the resampled series. -/
def chartDates (rows : List ((ℕ × ℕ) × ℚ)) : List String :=
  (chartMonthly rows).map (fun r => fmtYM r.1)

/-- `chart_prices`: month-end closes rounded to two decimals. -/
def chartPrices (rows : List ((ℕ × ℕ) × ℚ)) : List ℚ :=
  (chartMonthly rows).map (fun r => round2q r.2)

/-- Code-fence stripping applied to each model response before parsing:
`resp.text.replace("```json", "").replace("```", "").strip()`. -/
def stripFences (s : String) : String :=
  pyStrip (pyReplace (pyReplace s "```json" "") "```" "")

/-- The failover loop over `MODEL_PRIORITY`: invoke each model once in
order; the first invocation that succeeds and whose stripped response parses
as JSON supplies the result and the model-used string (the model id with
"models/" removed); every other outcome moves to the next model.  An
exhausted list leaves the empty structure and "N/A". -/
def failover (cfg : Config) (prompt : String) : List String → JVal × String
  | [] => (.obj [], "N/A")
  | m :: rest =>
      match cfg.invoke m prompt with
      | .error _ => failover cfg prompt rest
      | .ok txt =>
          match cfg.jparse (stripFences txt) with
          | some j => (j, pyReplace m "models/" "")
          | none => failover cfg prompt rest

/-- Block D: name lookup, prompt composition and the failover loop run only
when the API key is configured; otherwise the AI result stays `{}` with
model-used "N/A".  A `KeyError` from `format` would escape to the outer
handler (`.error ()`); the template's keys make this unreachable. -/
def aiStepX (cfg : Config) (name stock_id priceS change_pct chart_dump news_summary : String) :
    Except Unit (JVal × String) :=
  if cfg.hasKey then
    match composePrompt name stock_id priceS change_pct chart_dump news_summary with
    | none => .error ()
    | some prompt => .ok (failover cfg prompt cfg.models)
  else .ok (.obj [], "N/A")

/-- Category/memo merge: `old_data.get(k, dflt) if old_data else dflt`. -/
def oldField (old : Option JVal) (k : String) (dflt : String) : Except Unit JVal :=
  match old with
  | none => .ok (.str dflt)
  | some o => if jTruthy o then dictGet o k (.str dflt) else .ok (.str dflt)

/-- Block E: the merge producing the final record.  Every `.get` on a
non-dict value and the back-derivation of the absolute change (float parse of
the change-percent string, division by `1 + p/100`) can raise; any such
exception reaches the outer handler (`.error ()`).  Evaluation order follows
the source: river extraction first, then the record fields in literal order. -/
def mergeRecord (ai : JVal) (old_data : Option JVal)
    (stock_id nameF nowS model_used change_pct pbStr : String)
    (price : ℚ) (chart_dates : List String) (chart_prices : List ℚ) : Except Unit JVal :=
  match dictGet ai "financials" (.obj []) with
  | .error e => .error e
  | .ok fin =>
   match dictGet fin "valuation" (.obj []) with
   | .error e => .error e
   | .ok val =>
    match dictGet val "pe_river_data" (.obj []) with
    | .error e => .error e
    | .ok riv =>
     match dictGet riv "pe20" (.arr []) with
     | .error e => .error e
     | .ok pe20 =>
      match dictGet riv "pe16" (.arr []) with
      | .error e => .error e
      | .ok pe16 =>
       match dictGet riv "pe12" (.arr []) with
       | .error e => .error e
       | .ok pe12 =>
        let final_river : JVal := .obj
          [("dates", .arr (chart_dates.map .str)),
           ("price", .arr (chart_prices.map .num)),
           ("pe20", pe20), ("pe16", pe16), ("pe12", pe12)]
        match oldField old_data "category" "新加入" with
        | .error e => .error e
        | .ok category =>
         match oldField old_data "memo" "" with
         | .error e => .error e
         | .ok memo =>
          match parseFloatQ (pyStripChar '%' change_pct) with
          | none => .error ()
          | some p =>
           if 1 + p / 100 = 0 then .error ()
           else
            let changeS := fmtSigned2 (price - price / (1 + p / 100))
            match dictGet ai "industry" (.obj []) with
            | .error e => .error e
            | .ok industry =>
             match dictGet ai "news_events" (.obj [("news", .arr []), ("calendar", .arr [])]) with
             | .error e => .error e
             | .ok news_events =>
              match dictGet fin "eps_table" (.arr []) with
              | .error e => .error e
              | .ok eps_table =>
               match dictGet fin "revenue_trend" (.arr []) with
               | .error e => .error e
               | .ok revenue_trend =>
                match dictGet val "pe_status" (.str "-") with
                | .error e => .error e
                | .ok pe_status =>
                 match dictGet val "roe" (.str "-") with
                 | .error e => .error e
                 | .ok roe =>
                  match dictGet ai "technical" (.obj [("signal_light", .str "stable")]) with
                  | .error e => .error e
                  | .ok technical =>
                   match dictGet ai "dividend" (.obj []) with
                   | .error e => .error e
                   | .ok dividend =>
                    .ok (.obj
                      [("id", .str stock_id),
                       ("name", .str nameF),
                       ("category", category),
                       ("lastUpdated", .str nowS),
                       ("ai_model", .str model_used),
                       ("memo", memo),
                       ("basicInfo", .obj
                         [("price", .str (fmt2 price)),
                          ("change", .str changeS),
                          ("changePercent", .str change_pct)]),
                       ("industry", industry),
                       ("news_events", news_events),
                       ("financials", .obj
                         [("eps_table", eps_table),
                          ("revenue_trend", revenue_trend),
                          ("valuation", .obj
                            [("pe_status", pe_status),
                             ("pb", .str pbStr),
                             ("roe", roe),
                             ("pe_river_data", final_river)])]),
                       ("technical", technical),
                       ("dividend", dividend)])

/-- `stock_id = target_id.replace(".TW", "")`. -/
def sidOf (target_id : String) : String := pyReplace target_id ".TW" ""

/-- `get_stock_data(target_id, old_data)`.  `none` is the source's `return
None`: either the explicit total-failure return (price 0) or any exception
caught by the outer `except`. -/
def get_stock_data (cfg : Config) (env : TickerEnv) (old_data : Option JVal)
    (target_id : String) : Option JVal :=
  let stock_id := sidOf target_id
  let q := quoteBlock env
  if q.1 = 0 then none
  else
    let news_summary := newsBlock env
    match env.hist1y with
    | .error _ => none
    | .ok rows =>
        let chart_dates := chartDates rows
        let chart_prices := chartPrices rows
        match env.info with
        | .error _ => none
        | .ok inf =>
            let name := inf.1.getD stock_id
            match aiStepX cfg name stock_id (fmt2 q.1) q.2.2
                (dumpChart (chart_dates.zip chart_prices)) news_summary with
            | .error _ => none
            | .ok aip =>
                match mergeRecord aip.1 old_data stock_id
                    (if cfg.hasKey then name else stock_id) env.now aip.2 q.2.2
                    (inf.2.getD "-") q.1 chart_dates chart_prices with
                | .error _ => none
                | .ok rec => some rec

/-! The `__main__` batch: target construction and the per-ticker loop. -/

/-- `item['id']` as a string; `none` models the crash on a malformed item
(non-dict, missing id; non-string ids are outside the model). -/
def recIdOf (j : JVal) : Option String :=
  match jfield j "id" with
  | some (.str s) => some s
  | _ => none

/-- Dict insertion: replace the value of an existing key in place, append a
new key at the end (Python dict semantics). -/
def insertOrReplace (m : List (String × JVal)) (k : String) (v : JVal) :
    List (String × JVal) :=
  if m.any (fun p => p.1 == k) then m.map (fun p => if p.1 == k then (k, v) else p)
  else m ++ [(k, v)]

/-- `old_map = {item['id']: item for item in current}`. -/
def buildOldMap (items : List JVal) : Option (List (String × JVal)) :=
  items.foldlM (fun m j => (recIdOf j).map (fun i => insertOrReplace m i j)) []

/-- `targets = list(old_map.keys())` plus the `--add` handling: a truthy
`--add` value is stripped and uppercased; if not already a target it is
prepended and seeded in `old_map` with `{"category": "新加入"}`. -/
def addTarget (targets : List String) (om : List (String × JVal)) (add : Option String) :
    List String × List (String × JVal) :=
  match add with
  | none => (targets, om)
  | some a =>
      if a.isEmpty then (targets, om)
      else
        let nid := pyUpper (pyStrip a)
        if targets.contains nid then (targets, om)
        else (nid :: targets, insertOrReplace om nid (.obj [("category", .str "新加入")]))

/-- Fallback on a `None` result: append the previous record when it exists
and has a `name` key; drop the ticker otherwise; `'name' in` a non-container
previous value is a `TypeError` crashing the run. -/
def fallbackStep (prev : Option JVal) : Except Unit (Option JVal) :=
  match prev with
  | none => .ok none
  | some rec =>
      match jContains rec "name" with
      | none => .error ()
      | some true => .ok (some rec)
      | some false => .ok none

/-- One iteration of the per-ticker loop: run `get_stock_data` with the
previous record; on `None`, apply the fallback. -/
def stepOut (cfg : Config) (envF : String → TickerEnv) (om : List (String × JVal))
    (sid : String) : Except Unit (Option JVal) :=
  match get_stock_data cfg (envF sid) (om.lookup sid) sid with
  | some r => .ok (some r)
  | none => fallbackStep (om.lookup sid)

/-- The full per-ticker loop, building `final` in target order. -/
def runLoop (cfg : Config) (envF : String → TickerEnv) (om : List (String × JVal)) :
    List String → Except Unit (List JVal)
  | [] => .ok []
  | sid :: rest =>
      match stepOut cfg envF om sid with
      | .error e => .error e
      | .ok h =>
          match runLoop cfg envF om rest with
          | .error e => .error e
          | .ok t => .ok (match h with | some r => r :: t | none => t)

/-- The whole `__main__` run: build the old map from the persisted list,
construct targets, run the loop.  `none` is a crash of the batch. -/
def run_main (cfg : Config) (envF : String → TickerEnv) (fileItems : List JVal)
    (add : Option String) : Option (List JVal) :=
  match buildOldMap fileItems with
  | none => none
  | some om0 =>
      let t := addTarget (om0.map (fun p => p.1)) om0 add
      match runLoop cfg envF t.2 t.1 with
      | .error _ => none
      | .ok out => some out

/-! Total ("E") views of the pipeline stages, used to state theorems about
records produced by a successful run without existential quantification. -/

/-- One-year rows when the fetch succeeded, `[]` otherwise. -/
def rowsOf (env : TickerEnv) : List ((ℕ × ℕ) × ℚ) :=
  match env.hist1y with | .ok r => r | .error _ => []

/-- Info pair when the lookup succeeded, `(none, none)` otherwise. -/
def infoOf (env : TickerEnv) : Option String × Option String :=
  match env.info with | .ok i => i | .error _ => (none, none)

/-- Chart date labels of the run, as a total function of the environment. -/
def chartDatesE (env : TickerEnv) : List String := chartDates (rowsOf env)

/-- Chart prices of the run, as a total function of the environment. -/
def chartPricesE (env : TickerEnv) : List ℚ := chartPrices (rowsOf env)

/-- The AI step as run by `get_stock_data`, as a total function. -/
def aiE (cfg : Config) (env : TickerEnv) (tid : String) : Except Unit (JVal × String) :=
  aiStepX cfg ((infoOf env).1.getD (sidOf tid)) (sidOf tid) (fmt2 (quoteBlock env).1)
    (quoteBlock env).2.2 (dumpChart ((chartDatesE env).zip (chartPricesE env))) (newsBlock env)

/-- The (AI result, model used) pair of the run. -/
def aiPairE (cfg : Config) (env : TickerEnv) (tid : String) : JVal × String :=
  match aiE cfg env tid with | .ok p => p | .error _ => (.obj [], "N/A")

/-- The merge step as run by `get_stock_data`, as a total function. -/
def mergeE (cfg : Config) (env : TickerEnv) (old_data : Option JVal) (tid : String) :
    Except Unit JVal :=
  mergeRecord (aiPairE cfg env tid).1 old_data (sidOf tid)
    (if cfg.hasKey then (infoOf env).1.getD (sidOf tid) else sidOf tid) env.now
    (aiPairE cfg env tid).2 (quoteBlock env).2.2 ((infoOf env).2.getD "-")
    (quoteBlock env).1 (chartDatesE env) (chartPricesE env)

/-- The valuation-band extraction the merge performs on the AI result:
`ai.get("financials", {}).get("valuation", {}).get("pe_river_data", {}).get(k, [])`. -/
def bandExtract (ai : JVal) (k : String) : Except Unit JVal :=
  match dictGet ai "financials" (.obj []) with
  | .error e => .error e
  | .ok fin =>
      match dictGet fin "valuation" (.obj []) with
      | .error e => .error e
      | .ok val =>
          match dictGet val "pe_river_data" (.obj []) with
          | .error e => .error e
          | .ok riv => dictGet riv k (.arr [])

/-- The valuation band of the run, as a total function. -/
def bandE (cfg : Config) (env : TickerEnv) (tid : String) (k : String) : JVal :=
  match bandExtract (aiPairE cfg env tid).1 k with | .ok b => b | .error _ => .arr []

/-- Path to the persisted river chart inside a record. -/
def riverOf (rec : JVal) : Option JVal :=
  (jfield rec "financials").bind
    (fun f => (jfield f "valuation").bind (fun v => jfield v "pe_river_data"))

/-! Order facts about the descending string sort. -/

/-- Totality of the code-point lexicographic order. -/
theorem lexLe_total (a : List Char) : ∀ b, lexLe a b = true ∨ lexLe b a = true := by
  induction a with
  | nil => intro b; left; rfl
  | cons a as ih =>
      intro b
      cases b with
      | nil => right; rfl
      | cons b bs =>
          simp only [lexLe]
          rcases Nat.lt_trichotomy a.toNat b.toNat with h | h | h
          · left; simp [h]
          · have h1 : ¬ a.toNat < b.toNat := by omega
            have h2 : ¬ b.toNat < a.toNat := by omega
            simp only [h1, h2, if_false]
            exact ih bs
          · right; simp [h]
/-- Transitivity of the code-point lexicographic order. -/
theorem lexLe_trans (a : List Char) :
    ∀ b c, lexLe a b = true → lexLe b c = true → lexLe a c = true := by
  induction a with
  | nil => intro b c _ _; rfl
  | cons a as ih =>
      intro b c hab hbc
      cases b with
      | nil => simp [lexLe] at hab
      | cons b bs =>
          cases c with
          | nil => simp [lexLe] at hbc
          | cons c cs =>
              simp only [lexLe] at hab hbc ⊢
              by_cases h1 : a.toNat < b.toNat <;> by_cases h2 : b.toNat < c.toNat
              · simp [show a.toNat < c.toNat by omega]
              · simp only [h2, if_false] at hbc
                by_cases h3 : c.toNat < b.toNat
                · simp [h3] at hbc
                · have hbc' : b.toNat = c.toNat := by omega
                  simp [show a.toNat < c.toNat by omega]
              · simp only [h1, if_false] at hab
                by_cases h3 : b.toNat < a.toNat
                · simp [h3] at hab
                · have hab' : a.toNat = b.toNat := by omega
                  simp [show a.toNat < c.toNat by omega]
              · simp only [h1, if_false] at hab
                by_cases h3 : b.toNat < a.toNat
                · simp [h3] at hab
                · simp only [h3, if_false] at hab
                  simp only [h2, if_false] at hbc
                  by_cases h4 : c.toNat < b.toNat
                  · simp [h4] at hbc
                  · simp only [h4, if_false] at hbc
                    have e1 : ¬ a.toNat < c.toNat := by omega
                    have e2 : ¬ c.toNat < a.toNat := by omega
                    simp only [e1, e2, if_false]
                    exact ih bs cs hab hbc

/-- Helper: the final fallback of the catalog builder never yields `[]`. -/
theorem catalogNonempty (l : List String) :
    (if l.isEmpty then ["models/gemini-1.5-pro", "models/gemini-1.5-flash"] else l) ≠ [] := by
  cases l <;> simp

/-- Claim C4: the model catalog builder never fails: a discovery error gives
the fixed two-element default list (the pro-tier default followed by the
flash-tier default); otherwise the content-generation-capable identifiers are
sorted in descending lexicographic order and partitioned into experimental
(contains "exp"), pro (contains "pro", not "exp") and flash (contains
"flash", not "exp"), concatenated in that order — identifiers matching no
tier are dropped — with the default list substituted when the concatenation
is empty.  The result is never empty. -/
theorem model_catalog_spec :
    get_best_models (.error ()) = ["models/gemini-1.5-pro", "models/gemini-1.5-flash"] ∧
    ∀ ms : List ModelInfo,
      (List.insertionSort strGe
        ((ms.filter (fun m => m.supported_generation_methods.contains "generateContent")).map
          (fun m => m.name))).Sorted strGe ∧
      List.Perm
        (List.insertionSort strGe
          ((ms.filter (fun m => m.supported_generation_methods.contains "generateContent")).map
            (fun m => m.name)))
        ((ms.filter (fun m => m.supported_generation_methods.contains "generateContent")).map
          (fun m => m.name)) ∧
      get_best_models (.ok ms) =
        (let s := List.insertionSort strGe
          ((ms.filter (fun m => m.supported_generation_methods.contains "generateContent")).map
            (fun m => m.name));
         let res := s.filter (fun m => strContains m "exp") ++
           s.filter (fun m => strContains m "pro" && !strContains m "exp") ++
           s.filter (fun m => strContains m "flash" && !strContains m "exp");
         if res.isEmpty then ["models/gemini-1.5-pro", "models/gemini-1.5-flash"] else res) ∧
      get_best_models (.ok ms) ≠ [] := by
  haveI hTot : IsTotal String strGe := ⟨fun a b => lexLe_total b.data a.data⟩
  haveI hTrans : IsTrans String strGe :=
    ⟨fun a b c hab hbc => lexLe_trans c.data b.data a.data hbc hab⟩
  refine ⟨rfl, fun ms => ⟨List.sorted_insertionSort _ _, List.perm_insertionSort _ _, rfl, ?_⟩⟩
  simp only [get_best_models, MODEL_DEFAULTS]
  exact catalogNonempty _

/-- A configuration whose single model returns fenced JSON that parses. -/
def cfgX : Config :=
  ⟨true, ["models/gemini-1.5-pro"], fun _ _ => .ok "```json[]```",
   fun s => if s = "[]" then some (.arr []) else none⟩

/-- Claim C3 counterexample: with the model list containing the identifier
"models/gemini-1.5-pro" and its invocation succeeding with parseable JSON,
the model-used value is "gemini-1.5-pro" — the identifier with "models/"
removed — not the identifier itself, contradicting the claim that the
successful model's identifier becomes the model-used value. -/
theorem failover_model_used_counterexample :
    (failover cfgX "p" ["models/gemini-1.5-pro"]).2 = "gemini-1.5-pro" ∧
    "gemini-1.5-pro" ≠ "models/gemini-1.5-pro" := ⟨rfl, by decide⟩

/-- Claim C3 (amended): the failover invoker makes exactly one pass over the
ordered model list: the result is determined by the first model (in priority
order) whose invocation succeeds and whose response, after code-fence
stripping, parses as JSON — its parsed structure is accepted without further
validation and its identifier, with every occurrence of "models/" removed,
becomes the model-used value; any invocation error or parse failure uniformly
advances to the next model with no retry, and an exhausted list yields the
empty structure with the sentinel "N/A". -/
theorem failover_first_parse_spec (cfg : Config) (prompt : String) (ms : List String) :
    failover cfg prompt ms =
      (ms.findSome? (fun m =>
        match cfg.invoke m prompt with
        | .error _ => none
        | .ok txt =>
            (cfg.jparse (stripFences txt)).map (fun j => (j, pyReplace m "models/" "")))).getD
        (.obj [], "N/A") := by
  induction ms with
  | nil => rfl
  | cons m rest ih =>
      cases hinv : cfg.invoke m prompt with
      | error e =>
          simp only [failover, List.findSome?, hinv]
          exact ih
      | ok txt =>
          cases hp : cfg.jparse (stripFences txt) with
          | none =>
              simp only [failover, List.findSome?, hinv, hp, Option.map_none']
              exact ih
          | some j =>
              simp only [failover, List.findSome?, hinv, hp, Option.map_some']
              rfl

/-- The same environment with a different news outcome. -/
def setNews (env : TickerEnv) (v : Except Unit (List (String × String))) : TickerEnv :=
  ⟨env.fast, env.hist5, v, env.hist1y, env.info, env.now⟩

/-- Claim C10: the composed prompt does not depend on the fetched news block:
the template contains no `news_summary` placeholder even though the news
summary is passed to the formatter, so for any two runs differing only in the
retrieved news items the prompt sent to every model — and in fact the whole
per-ticker result — is identical. -/
theorem prompt_news_independent :
    (∀ name sid priceS cp dump ns ns',
        composePrompt name sid priceS cp dump ns = composePrompt name sid priceS cp dump ns') ∧
    Seg.ph "news_summary" ∉ PROMPT_TEMPLATE ∧
    (∀ cfg env old tid v,
        get_stock_data cfg (setNews env v) old tid = get_stock_data cfg env old tid) :=
  ⟨fun _ _ _ _ _ _ _ => rfl, by decide, fun _ _ _ _ _ => rfl⟩

/-! Claim C8: change-percent formatting. -/

/-- Evaluation helper: the percent change of 550 against 540, in lowest
terms. -/
lemma pct550_eval : (((550:ℚ) - 540) / 540) * 100 = Rat.mk' 50 27 (by decide) (by decide) := by
  rw [Rat.mk'_eq_divInt, Rat.divInt_eq_div]; norm_num

/-- Claim C8: when both price and previous close are available (fast path
with a non-zero previous close, or a fallback window of at least two rows),
the change percent is (price − prev)/prev × 100 rendered with an explicit
sign, two decimal places and a trailing '%'; whenever price or prev is
unavailable — fast-info failure, zero previous close, empty fallback window,
or a one-row fallback window (`iloc[-2]` raises before the change
computation) — it is the string "0%". -/
theorem change_percent_format (env : TickerEnv) :
    (∀ lp pc : ℚ, env.fast = .ok (lp, pc) → ¬ lp = 0 →
        quoteBlock env = (lp, pc,
          if lp ≠ 0 ∧ pc ≠ 0 then fmtSigned2 ((lp - pc) / pc * 100) ++ "%" else "0%")) ∧
    (∀ pc closes x y r, env.fast = .ok (0, pc) → env.hist5 = .ok closes →
        closes.reverse = x :: y :: r →
        quoteBlock env = (x, y,
          if x ≠ 0 ∧ y ≠ 0 then fmtSigned2 ((x - y) / y * 100) ++ "%" else "0%")) ∧
    (∀ pc closes x, env.fast = .ok (0, pc) → env.hist5 = .ok closes →
        closes.reverse = [x] → quoteBlock env = (x, pc, "0%")) ∧
    (∀ pc closes, env.fast = .ok (0, pc) → env.hist5 = .ok closes →
        closes.reverse = [] → quoteBlock env = (0, pc, "0%")) ∧
    (∀ pc, env.fast = .ok (0, pc) → env.hist5 = .error () → quoteBlock env = (0, pc, "0%")) ∧
    (env.fast = .error () → quoteBlock env = (0, 0, "0%")) := by
  refine ⟨?_, ?_, ?_, ?_, ?_, ?_⟩
  · intro lp pc hfast hlp
    simp only [quoteBlock, hfast]
    rw [if_neg hlp]
  · intro pc closes x y r hfast hhist hrev
    simp only [quoteBlock, hfast, hhist, hrev, if_true]
  · intro pc closes x hfast hhist hrev
    simp only [quoteBlock, hfast, hhist, hrev, if_true]
  · intro pc closes hfast hhist hrev
    simp only [quoteBlock, hfast, hhist, hrev, if_true]
  · intro pc hfast hhist
    simp only [quoteBlock, hfast, hhist, if_true]
  · intro hfast
    simp only [quoteBlock, hfast]

/-- Market-fact environment of the documented scenario: fast quote 550.00
with previous close 540.00. -/
def env550 : TickerEnv := ⟨.ok (550, 540), .ok [], .ok [], .ok [], .ok (none, none), ""⟩

/-- Claim C8 witness: at price 550.00 and previous close 540.00 the change
percent renders as "+1.85%". -/
theorem change_percent_format_witness :
    env550.fast = .ok (550, 540) ∧ quoteBlock env550 = (550, 540, "+1.85%") := by
  refine ⟨rfl, ?_⟩
  have h := (change_percent_format env550).1 550 540 rfl (by norm_num)
  rw [h, if_pos (by norm_num : (550:ℚ) ≠ 0 ∧ (540:ℚ) ≠ 0), pct550_eval]
  rfl

/-! Claims C2 and C7: the per-ticker loop. -/

/-- Total quote failure (price 0 after the fallback) makes `get_stock_data`
return `None` before any downstream work. -/
theorem gsd_none_of_price0 (cfg : Config) (env : TickerEnv) (old : Option JVal)
    (tid : String) (h : (quoteBlock env).1 = 0) :
    get_stock_data cfg env old tid = none := by
  simp [get_stock_data, h]

/-- Claim C2: when the market-fact collection signals total failure for a
ticker, `get_stock_data` returns `None` and the loop body appends the
previous record itself — unmodified — when one exists with a `name` key;
with no such record (in particular the `--add` seed `{"category": …}`) the
ticker contributes nothing to the output.  (`'name' in old_map[sid]` on a
non-container previous value raises, crashing the run.) -/
theorem total_failure_fallback (cfg : Config) (envF : String → TickerEnv)
    (om : List (String × JVal)) (sid : String)
    (h : (quoteBlock (envF sid)).1 = 0) :
    get_stock_data cfg (envF sid) (om.lookup sid) sid = none ∧
    stepOut cfg envF om sid = fallbackStep (om.lookup sid) ∧
    (∀ rec, om.lookup sid = some rec → jContains rec "name" = some true →
        stepOut cfg envF om sid = .ok (some rec)) ∧
    (∀ rec, om.lookup sid = some rec → jContains rec "name" = some false →
        stepOut cfg envF om sid = .ok none) ∧
    (om.lookup sid = none → stepOut cfg envF om sid = .ok none) := by
  have hnone := gsd_none_of_price0 cfg (envF sid) (om.lookup sid) sid h
  have hstep : stepOut cfg envF om sid = fallbackStep (om.lookup sid) := by
    simp only [stepOut, hnone]
  refine ⟨hnone, hstep, ?_, ?_, ?_⟩
  · intro rec hl hn
    rw [hstep, hl]
    simp [fallbackStep, hn]
  · intro rec hl hn
    rw [hstep, hl]
    simp [fallbackStep, hn]
  · intro hl
    rw [hstep, hl]
    rfl

/-- Previous record with a resolved display name. -/
def recA : JVal := .obj [("id", .str "A"), ("name", .str "Alpha")]

/-- Old map holding one resolved record and one `--add` seed without a name. -/
def omW : List (String × JVal) := [("A", recA), ("B", .obj [("category", .str "新加入")])]

/-- Environment whose quote collection signals total failure (price 0). -/
def envFail : TickerEnv := ⟨.ok (0, 0), .ok [], .error (), .error (), .error (), ""⟩

/-- Configuration with no API key and no models. -/
def cfgOff : Config := ⟨false, [], fun _ _ => .error (), fun _ => none⟩

/-- Claim C2 witness: under total failure the known ticker "A" yields its
previous record exactly and the seeded ticker "B" (no `name`) is dropped. -/
theorem total_failure_fallback_witness :
    (quoteBlock envFail).1 = 0 ∧
    stepOut cfgOff (fun _ => envFail) omW "A" = .ok (some recA) ∧
    stepOut cfgOff (fun _ => envFail) omW "B" = .ok none := by
  refine ⟨rfl, ?_, ?_⟩
  · exact (total_failure_fallback cfgOff (fun _ => envFail) omW "A" rfl).2.2.1 recA rfl rfl
  · exact (total_failure_fallback cfgOff (fun _ => envFail) omW "B" rfl).2.2.2.1
      (.obj [("category", .str "新加入")]) rfl rfl


/-- Claim C7: the run's target order is the previous ids in original order
with a truthy added id — stripped and uppercased — prepended exactly when it
is not already present; and a successful loop's output is the in-order
filter-map of the per-ticker outcomes over that target list, so the output
preserves target order. -/
theorem target_order_spec :
    (∀ (ts : List String) om, addTarget ts om none = (ts, om)) ∧
    (∀ (ts : List String) om a, a.isEmpty = false →
        pyUpper (pyStrip a) ∉ ts →
        (addTarget ts om (some a)).1 = pyUpper (pyStrip a) :: ts) ∧
    (∀ (ts : List String) om a, a.isEmpty = false →
        pyUpper (pyStrip a) ∈ ts →
        (addTarget ts om (some a)).1 = ts) ∧
    (addTarget ["A", "B", "C"] [] (some "D")).1 = ["D", "A", "B", "C"] ∧
    (∀ cfg envF om (ts : List String) out, runLoop cfg envF om ts = .ok out →
        out = ts.filterMap (fun sid =>
          match stepOut cfg envF om sid with | .ok o => o | .error _ => none)) := by
  refine ⟨fun ts om => rfl, ?_, ?_, rfl, ?_⟩
  · intro ts om a ha hc
    simp [addTarget, ha, hc]
  · intro ts om a ha hc
    simp [addTarget, ha, hc]
  · intro cfg envF om ts
    induction ts with
    | nil =>
        intro out h
        injection h with h'
        simp [← h']
    | cons sid rest ih =>
        intro out h
        simp only [runLoop] at h
        cases hs : stepOut cfg envF om sid with
        | error e =>
            simp only [hs] at h
            exact Except.noConfusion h
        | ok o =>
            simp only [hs] at h
            cases hr : runLoop cfg envF om rest with
            | error e =>
                simp only [hr] at h
                exact Except.noConfusion h
            | ok t =>
                simp only [hr] at h
                injection h with h'
                simp only [List.filterMap_cons, hs]
                cases o with
                | none => rw [← h']; exact ih t hr
                | some r => rw [← h', ih t hr]

/-- Claim C7 witness: previous ids [A, B, C] with an add of " d " give the
target order [D, A, B, C]; adding an existing id leaves the order unchanged;
and a concrete successful loop equals the in-order filter-map of outcomes. -/
theorem target_order_spec_witness :
    ((" d " : String).isEmpty = false ∧
     pyUpper (pyStrip " d ") ∉ (["A", "B", "C"] : List String) ∧
     (addTarget ["A", "B", "C"] [] (some " d ")).1 = ["D", "A", "B", "C"]) ∧
    (("A" : String).isEmpty = false ∧
     pyUpper (pyStrip "A") ∈ (["A", "B", "C"] : List String) ∧
     (addTarget ["A", "B", "C"] [] (some "A")).1 = ["A", "B", "C"]) ∧
    (runLoop cfgOff (fun _ => envFail) omW ["A", "B"] = .ok [recA] ∧
     [recA] = (["A", "B"] : List String).filterMap (fun sid =>
       match stepOut cfgOff (fun _ => envFail) omW sid with | .ok o => o | .error _ => none)) := by
  refine ⟨⟨rfl, by decide, target_order_spec.2.1 ["A", "B", "C"] [] " d " rfl (by decide)⟩,
          ⟨rfl, by decide, target_order_spec.2.2.1 ["A", "B", "C"] [] "A" rfl (by decide)⟩,
          rfl, target_order_spec.2.2.2.2 cfgOff (fun _ => envFail) omW ["A", "B"] [recA] rfl⟩

/-! Inversion of a successful merge and a successful per-ticker run. -/

/-- Shape of every record a successful merge produces, with the provenance
of each non-literal field. -/
theorem mergeRecord_ok_inv
    (ai : JVal) (old_data : Option JVal)
    (stock_id nameF nowS model_used change_pct pbStr : String)
    (price : ℚ) (chart_dates : List String) (chart_prices : List ℚ) (rec : JVal)
    (h : mergeRecord ai old_data stock_id nameF nowS model_used change_pct pbStr price
      chart_dates chart_prices = .ok rec) :
    ∃ pe20 pe16 pe12 category memo p industry news_events eps_table revenue_trend
      pe_status roe technical dividend,
      bandExtract ai "pe20" = .ok pe20 ∧
      bandExtract ai "pe16" = .ok pe16 ∧
      bandExtract ai "pe12" = .ok pe12 ∧
      oldField old_data "category" "新加入" = .ok category ∧
      oldField old_data "memo" "" = .ok memo ∧
      parseFloatQ (pyStripChar '%' change_pct) = some p ∧
      ¬ (1 + p / 100 = 0) ∧
      rec = .obj
        [("id", .str stock_id),
         ("name", .str nameF),
         ("category", category),
         ("lastUpdated", .str nowS),
         ("ai_model", .str model_used),
         ("memo", memo),
         ("basicInfo", .obj
           [("price", .str (fmt2 price)),
            ("change", .str (fmtSigned2 (price - price / (1 + p / 100)))),
            ("changePercent", .str change_pct)]),
         ("industry", industry),
         ("news_events", news_events),
         ("financials", .obj
           [("eps_table", eps_table),
            ("revenue_trend", revenue_trend),
            ("valuation", .obj
              [("pe_status", pe_status),
               ("pb", .str pbStr),
               ("roe", roe),
               ("pe_river_data", .obj
                 [("dates", .arr (chart_dates.map .str)),
                  ("price", .arr (chart_prices.map .num)),
                  ("pe20", pe20), ("pe16", pe16), ("pe12", pe12)])])]),
         ("technical", technical),
         ("dividend", dividend)] := by
  unfold mergeRecord at h
  cases h1 : dictGet ai "financials" (.obj []) with
  | error e =>
      simp only [h1] at h
      exact Except.noConfusion h
  | ok fin =>
  simp only [h1] at h
  cases h2 : dictGet fin "valuation" (.obj []) with
  | error e =>
      simp only [h2] at h
      exact Except.noConfusion h
  | ok val =>
  simp only [h2] at h
  cases h3 : dictGet val "pe_river_data" (.obj []) with
  | error e =>
      simp only [h3] at h
      exact Except.noConfusion h
  | ok riv =>
  simp only [h3] at h
  cases h4 : dictGet riv "pe20" (.arr []) with
  | error e =>
      simp only [h4] at h
      exact Except.noConfusion h
  | ok pe20 =>
  simp only [h4] at h
  cases h5 : dictGet riv "pe16" (.arr []) with
  | error e =>
      simp only [h5] at h
      exact Except.noConfusion h
  | ok pe16 =>
  simp only [h5] at h
  cases h6 : dictGet riv "pe12" (.arr []) with
  | error e =>
      simp only [h6] at h
      exact Except.noConfusion h
  | ok pe12 =>
  simp only [h6] at h
  cases h7 : oldField old_data "category" "新加入" with
  | error e =>
      simp only [h7] at h
      exact Except.noConfusion h
  | ok category =>
  simp only [h7] at h
  cases h8 : oldField old_data "memo" "" with
  | error e =>
      simp only [h8] at h
      exact Except.noConfusion h
  | ok memo =>
  simp only [h8] at h
  cases h9 : parseFloatQ (pyStripChar '%' change_pct) with
  | none =>
      simp only [h9] at h
      exact Except.noConfusion h
  | some p =>
  simp only [h9] at h
  by_cases h10 : 1 + p / 100 = 0
  · rw [if_pos h10] at h
    exact Except.noConfusion h
  · rw [if_neg h10] at h
    cases h11 : dictGet ai "industry" (.obj []) with
    | error e =>
      simp only [h11] at h
      exact Except.noConfusion h
    | ok industry =>
    simp only [h11] at h
    cases h12 : dictGet ai "news_events" (.obj [("news", .arr []), ("calendar", .arr [])]) with
    | error e =>
      simp only [h12] at h
      exact Except.noConfusion h
    | ok news_events =>
    simp only [h12] at h
    cases h13 : dictGet fin "eps_table" (.arr []) with
    | error e =>
      simp only [h13] at h
      exact Except.noConfusion h
    | ok eps_table =>
    simp only [h13] at h
    cases h14 : dictGet fin "revenue_trend" (.arr []) with
    | error e =>
      simp only [h14] at h
      exact Except.noConfusion h
    | ok revenue_trend =>
    simp only [h14] at h
    cases h15 : dictGet val "pe_status" (.str "-") with
    | error e =>
      simp only [h15] at h
      exact Except.noConfusion h
    | ok pe_status =>
    simp only [h15] at h
    cases h16 : dictGet val "roe" (.str "-") with
    | error e =>
      simp only [h16] at h
      exact Except.noConfusion h
    | ok roe =>
    simp only [h16] at h
    cases h17 : dictGet ai "technical" (.obj [("signal_light", .str "stable")]) with
    | error e =>
      simp only [h17] at h
      exact Except.noConfusion h
    | ok technical =>
    simp only [h17] at h
    cases h18 : dictGet ai "dividend" (.obj []) with
    | error e =>
      simp only [h18] at h
      exact Except.noConfusion h
    | ok dividend =>
    simp only [h18] at h
    injection h with h'
    refine ⟨pe20, pe16, pe12, category, memo, p, industry, news_events, eps_table,
      revenue_trend, pe_status, roe, technical, dividend, ?_, ?_, ?_, rfl, rfl, rfl, h10, h'.symm⟩
    · unfold bandExtract
      simp only [h1, h2, h3]
      exact h4
    · unfold bandExtract
      simp only [h1, h2, h3]
      exact h5
    · unfold bandExtract
      simp only [h1, h2, h3]
      exact h6

/-- Inversion of a successful per-ticker run: every stage succeeded and the
record is the output of the merge stage. -/
theorem gsd_some_inv (cfg : Config) (env : TickerEnv) (old : Option JVal) (tid : String)
    (rec : JVal) (h : get_stock_data cfg env old tid = some rec) :
    ¬ (quoteBlock env).1 = 0 ∧
    env.hist1y = .ok (rowsOf env) ∧
    env.info = .ok (infoOf env) ∧
    aiE cfg env tid = .ok (aiPairE cfg env tid) ∧
    mergeE cfg env old tid = .ok rec := by
  simp only [get_stock_data] at h
  by_cases hq : (quoteBlock env).1 = 0
  · rw [if_pos hq] at h
    exact Option.noConfusion h
  · rw [if_neg hq] at h
    cases h1 : env.hist1y with
    | error e =>
        simp only [h1] at h
        exact Option.noConfusion h
    | ok rows =>
    simp only [h1] at h
    cases h2 : env.info with
    | error e =>
        simp only [h2] at h
        exact Option.noConfusion h
    | ok inf =>
    simp only [h2] at h
    have hrows : rowsOf env = rows := by simp [rowsOf, h1]
    have hinf : infoOf env = inf := by simp [infoOf, h2]
    cases h3 : aiStepX cfg (inf.1.getD (sidOf tid)) (sidOf tid) (fmt2 (quoteBlock env).1)
        (quoteBlock env).2.2 (dumpChart ((chartDates rows).zip (chartPrices rows)))
        (newsBlock env) with
    | error e =>
        simp only [h3] at h
        exact Option.noConfusion h
    | ok aip =>
    simp only [h3] at h
    have hai : aiE cfg env tid = .ok aip := by
      unfold aiE chartDatesE chartPricesE
      rw [hinf, hrows]
      exact h3
    have hap : aiPairE cfg env tid = aip := by
      unfold aiPairE
      rw [hai]
    cases h4 : mergeRecord aip.1 old (sidOf tid)
        (if cfg.hasKey then inf.1.getD (sidOf tid) else sidOf tid) env.now aip.2
        (quoteBlock env).2.2 (inf.2.getD "-") (quoteBlock env).1
        (chartDates rows) (chartPrices rows) with
    | error e =>
        simp only [h4] at h
        exact Option.noConfusion h
    | ok r =>
    simp only [h4] at h
    injection h with h'
    refine ⟨hq, ?_, ?_, ?_, ?_⟩
    · rw [hrows]
    · rw [hinf]
    · rw [hap]
      exact hai
    · unfold mergeE chartDatesE chartPricesE
      rw [hap, hinf, hrows, ← h']
      exact h4

/-! Claims C1, C6, C9: properties of every successfully merged record. -/

/-- Claim C1: every record a run produces carries, at
`financials.valuation.pe_river_data`, ground-truth `dates`/`price` arrays
equal to the month-end labels and two-decimal-rounded prices of the current
run's market-history series — regardless of anything the AI response
contains, including its own `pe_river_data` date/price arrays — while the
three band arrays are exactly the AI extraction
`.get("financials",{}).get("valuation",{}).get("pe_river_data",{}).get(k,[])`
for k in pe20/pe16/pe12, i.e. the AI's values with `[]` as default when
absent. -/
theorem river_ground_truth (cfg : Config) (env : TickerEnv) (old : Option JVal)
    (tid : String) (rec : JVal) (h : get_stock_data cfg env old tid = some rec) :
    riverOf rec = some (.obj
      [("dates", .arr ((chartDatesE env).map .str)),
       ("price", .arr ((chartPricesE env).map .num)),
       ("pe20", bandE cfg env tid "pe20"),
       ("pe16", bandE cfg env tid "pe16"),
       ("pe12", bandE cfg env tid "pe12")]) := by
  obtain ⟨hq, h1, h2, hai, hm⟩ := gsd_some_inv cfg env old tid rec h
  obtain ⟨pe20, pe16, pe12, category, memo, p, industry, news_events, eps, rev, pes, roe,
    tech, divd, hb20, hb16, hb12, hcat, hmemo, hp, hz, hrec⟩ :=
    mergeRecord_ok_inv _ _ _ _ _ _ _ _ _ _ _ _ hm
  subst hrec
  have e20 : bandE cfg env tid "pe20" = pe20 := by unfold bandE; rw [hb20]
  have e16 : bandE cfg env tid "pe16" = pe16 := by unfold bandE; rw [hb16]
  have e12 : bandE cfg env tid "pe12" = pe12 := by unfold bandE; rw [hb12]
  rw [e20, e16, e12]
  rfl

/-- Claim C6: the merged record's category and memo come verbatim from the
previous record when it carries them; with no previous record, and likewise
with the `--add` seed `{"category": "新加入"}`, category is "新加入" and the
memo is empty. -/
theorem category_memo_carryover (cfg : Config) (env : TickerEnv) (old : Option JVal)
    (tid : String) (rec : JVal) (h : get_stock_data cfg env old tid = some rec) :
    (old = none →
        jfield rec "category" = some (.str "新加入") ∧ jfield rec "memo" = some (.str "")) ∧
    (∀ kvs c, old = some (.obj kvs) → kvs.lookup "category" = some c →
        jfield rec "category" = some c) ∧
    (∀ kvs m, old = some (.obj kvs) → kvs.lookup "memo" = some m →
        jfield rec "memo" = some m) ∧
    (old = some (.obj [("category", .str "新加入")]) →
        jfield rec "category" = some (.str "新加入") ∧ jfield rec "memo" = some (.str "")) := by
  obtain ⟨hq, h1, h2, hai, hm⟩ := gsd_some_inv cfg env old tid rec h
  obtain ⟨pe20, pe16, pe12, category, memo, p, industry, news_events, eps, rev, pes, roe,
    tech, divd, hb20, hb16, hb12, hcat, hmemo, hp, hz, hrec⟩ :=
    mergeRecord_ok_inv _ _ _ _ _ _ _ _ _ _ _ _ hm
  subst hrec
  refine ⟨?_, ?_, ?_, ?_⟩
  · intro h0
    subst h0
    have hc : Except.ok (JVal.str "新加入") = Except.ok category := hcat
    have hmm : Except.ok (JVal.str "") = Except.ok memo := hmemo
    injection hc with hc'
    injection hmm with hm'
    exact ⟨congrArg some hc'.symm, congrArg some hm'.symm⟩
  · intro kvs c h0 hl
    subst h0
    cases kvs with
    | nil => simp [List.lookup] at hl
    | cons hd tl =>
        have ht : jTruthy (.obj (hd :: tl)) = true := by simp [jTruthy]
        have hcat' : dictGet (.obj (hd :: tl)) "category" (.str "新加入") = .ok category := by
          simpa [oldField, ht] using hcat
        have hv : Except.ok (((hd :: tl).lookup "category").getD (.str "新加入")) =
            Except.ok category := hcat'
        injection hv with hv'
        rw [hl] at hv'
        exact congrArg some hv'.symm
  · intro kvs m h0 hl
    subst h0
    cases kvs with
    | nil => simp [List.lookup] at hl
    | cons hd tl =>
        have ht : jTruthy (.obj (hd :: tl)) = true := by simp [jTruthy]
        have hmemo' : dictGet (.obj (hd :: tl)) "memo" (.str "") = .ok memo := by
          simpa [oldField, ht] using hmemo
        have hv : Except.ok (((hd :: tl).lookup "memo").getD (.str "")) =
            Except.ok memo := hmemo'
        injection hv with hv'
        rw [hl] at hv'
        exact congrArg some hv'.symm
  · intro h0
    subst h0
    have hc : Except.ok (JVal.str "新加入") = Except.ok category := hcat
    have hmm : Except.ok (JVal.str "") = Except.ok memo := hmemo
    injection hc with hc'
    injection hmm with hm'
    exact ⟨congrArg some hc'.symm, congrArg some hm'.symm⟩

/-- Parsed value of the already-rounded change-percent string of the run. -/
def pctParsedE (env : TickerEnv) : ℚ :=
  (parseFloatQ (pyStripChar '%' (quoteBlock env).2.2)).getD 0

/-- Claim C9: the merged basic-info block has the price formatted from the
current quote, the change percent string of the current quote, and an
absolute change back-derived algebraically from the parsed (already-rounded)
change-percent string p as price − price/(1 + p/100) — not computed as
price − previous close — and the block is a function of the market facts
alone: any AI configuration, previous record or target id producing a record
in the same environment yields an identical basic-info block. -/
theorem change_back_derivation (cfg : Config) (env : TickerEnv) (old : Option JVal)
    (tid : String) (rec : JVal) (h : get_stock_data cfg env old tid = some rec) :
    parseFloatQ (pyStripChar '%' (quoteBlock env).2.2) = some (pctParsedE env) ∧
    jfield rec "basicInfo" = some (.obj
      [("price", .str (fmt2 (quoteBlock env).1)),
       ("change", .str (fmtSigned2 ((quoteBlock env).1 -
          (quoteBlock env).1 / (1 + pctParsedE env / 100)))),
       ("changePercent", .str (quoteBlock env).2.2)]) ∧
    (∀ cfg₂ old₂ tid₂ rec₂, get_stock_data cfg₂ env old₂ tid₂ = some rec₂ →
        jfield rec₂ "basicInfo" = jfield rec "basicInfo") := by
  have aux : ∀ (cfg' : Config) (old' : Option JVal) (tid' : String) (rec' : JVal),
      get_stock_data cfg' env old' tid' = some rec' →
      parseFloatQ (pyStripChar '%' (quoteBlock env).2.2) = some (pctParsedE env) ∧
      jfield rec' "basicInfo" = some (.obj
        [("price", .str (fmt2 (quoteBlock env).1)),
         ("change", .str (fmtSigned2 ((quoteBlock env).1 -
            (quoteBlock env).1 / (1 + pctParsedE env / 100)))),
         ("changePercent", .str (quoteBlock env).2.2)]) := by
    intro cfg' old' tid' rec' h'
    obtain ⟨hq, h1, h2, hai, hm⟩ := gsd_some_inv cfg' env old' tid' rec' h'
    obtain ⟨pe20, pe16, pe12, category, memo, p, industry, news_events, eps, rev, pes, roe,
      tech, divd, hb20, hb16, hb12, hcat, hmemo, hp, hz, hrec⟩ :=
      mergeRecord_ok_inv _ _ _ _ _ _ _ _ _ _ _ _ hm
    subst hrec
    have hpE : pctParsedE env = p := by
      unfold pctParsedE
      rw [hp]
      rfl
    rw [hpE]
    exact ⟨hp, rfl⟩
  obtain ⟨hp1, hp2⟩ := aux cfg old tid rec h
  refine ⟨hp1, hp2, ?_⟩
  intro cfg₂ old₂ tid₂ rec₂ h₂
  rw [(aux cfg₂ old₂ tid₂ rec₂ h₂).2, hp2]

/-! Claim C5: abort conditions of the per-ticker pipeline. -/

/-- A raising one-year history fetch aborts the ticker. -/
theorem gsd_none_of_hist1yErr (cfg : Config) (env : TickerEnv) (old : Option JVal)
    (tid : String) (h : env.hist1y = .error ()) : get_stock_data cfg env old tid = none := by
  by_cases hq : (quoteBlock env).1 = 0
  · exact gsd_none_of_price0 cfg env old tid hq
  · simp [get_stock_data, if_neg hq, h]

/-- A raising `ticker.info` lookup aborts the ticker. -/
theorem gsd_none_of_infoErr (cfg : Config) (env : TickerEnv) (old : Option JVal)
    (tid : String) (h : env.info = .error ()) : get_stock_data cfg env old tid = none := by
  by_cases hq : (quoteBlock env).1 = 0
  · exact gsd_none_of_price0 cfg env old tid hq
  · cases h1 : env.hist1y with
    | error e => cases e; exact gsd_none_of_hist1yErr cfg env old tid h1
    | ok rows => simp [get_stock_data, if_neg hq, h1, h]

/-- A raising AI step (a `format` KeyError) aborts the ticker. -/
theorem gsd_none_of_aiErr (cfg : Config) (env : TickerEnv) (old : Option JVal)
    (tid : String) (h : aiE cfg env tid = .error ()) : get_stock_data cfg env old tid = none := by
  by_cases hq : (quoteBlock env).1 = 0
  · exact gsd_none_of_price0 cfg env old tid hq
  · cases h1 : env.hist1y with
    | error e => cases e; exact gsd_none_of_hist1yErr cfg env old tid h1
    | ok rows =>
    cases h2 : env.info with
    | error e => cases e; exact gsd_none_of_infoErr cfg env old tid h2
    | ok inf =>
    have hrows : rowsOf env = rows := by simp [rowsOf, h1]
    have hinf : infoOf env = inf := by simp [infoOf, h2]
    unfold aiE chartDatesE chartPricesE at h
    rw [hinf, hrows] at h
    simp [get_stock_data, if_neg hq, h1, h2, h]

/-- A raising merge step aborts the ticker. -/
theorem gsd_none_of_mergeErr (cfg : Config) (env : TickerEnv) (old : Option JVal)
    (tid : String) (h : mergeE cfg env old tid = .error ()) :
    get_stock_data cfg env old tid = none := by
  by_cases hq : (quoteBlock env).1 = 0
  · exact gsd_none_of_price0 cfg env old tid hq
  · cases h1 : env.hist1y with
    | error e => cases e; exact gsd_none_of_hist1yErr cfg env old tid h1
    | ok rows =>
    cases h2 : env.info with
    | error e => cases e; exact gsd_none_of_infoErr cfg env old tid h2
    | ok inf =>
    have hrows : rowsOf env = rows := by simp [rowsOf, h1]
    have hinf : infoOf env = inf := by simp [infoOf, h2]
    cases h3 : aiStepX cfg (inf.1.getD (sidOf tid)) (sidOf tid) (fmt2 (quoteBlock env).1)
        (quoteBlock env).2.2 (dumpChart ((chartDates rows).zip (chartPrices rows)))
        (newsBlock env) with
    | error e =>
        cases e
        apply gsd_none_of_aiErr cfg env old tid
        unfold aiE chartDatesE chartPricesE
        rw [hinf, hrows]
        exact h3
    | ok aip =>
        have hai : aiE cfg env tid = .ok aip := by
          unfold aiE chartDatesE chartPricesE
          rw [hinf, hrows]
          exact h3
        have hap : aiPairE cfg env tid = aip := by
          unfold aiPairE
          rw [hai]
        unfold mergeE chartDatesE chartPricesE at h
        rw [hap, hinf, hrows] at h
        simp [get_stock_data, if_neg hq, h1, h2, h3, h]

/-- Every stage succeeding yields the merged record. -/
theorem gsd_some_of_stages (cfg : Config) (env : TickerEnv) (old : Option JVal)
    (tid : String) (rec : JVal)
    (hq : ¬ (quoteBlock env).1 = 0)
    (hh : env.hist1y = .ok (rowsOf env))
    (hi : env.info = .ok (infoOf env))
    (hai : aiE cfg env tid = .ok (aiPairE cfg env tid))
    (hm : mergeE cfg env old tid = .ok rec) :
    get_stock_data cfg env old tid = some rec := by
  have hai' : aiStepX cfg ((infoOf env).1.getD (sidOf tid)) (sidOf tid)
      (fmt2 (quoteBlock env).1) (quoteBlock env).2.2
      (dumpChart ((chartDates (rowsOf env)).zip (chartPrices (rowsOf env))))
      (newsBlock env) = .ok (aiPairE cfg env tid) := by
    unfold aiE chartDatesE chartPricesE at hai
    exact hai
  have hm' : mergeRecord (aiPairE cfg env tid).1 old (sidOf tid)
      (if cfg.hasKey then (infoOf env).1.getD (sidOf tid) else sidOf tid) env.now
      (aiPairE cfg env tid).2 (quoteBlock env).2.2 ((infoOf env).2.getD "-")
      (quoteBlock env).1 (chartDates (rowsOf env)) (chartPrices (rowsOf env)) = .ok rec := by
    unfold mergeE chartDatesE chartPricesE at hm
    exact hm
  simp [get_stock_data, if_neg hq, hh, hi, hai', hm']

/-- Environment whose quote succeeds with a non-zero price but whose
one-year history fetch raises. -/
def envH : TickerEnv := ⟨.ok (100, 99), .ok [], .ok [], .error (), .ok (none, none), ""⟩

/-- Claim C5 counterexample: a raising one-year history fetch aborts the
per-ticker pipeline even though the quote price is 100 ≠ 0, so a zero price
is not the only abort condition. -/
theorem abort_nonzero_price_counterexample :
    get_stock_data cfgOff envH none "T" = none ∧
    (quoteBlock envH).1 = 100 ∧ ¬ ((100 : ℚ) = 0) := by
  refine ⟨gsd_none_of_hist1yErr cfgOff envH none "T" rfl, rfl, by norm_num⟩

/-- Claim C5 (amended): the per-ticker pipeline aborts (returns `None` and
falls back to the prior record or drops the ticker) exactly when the quote
price is zero after the fallback, or the one-year history fetch raises, or
the display-name/info lookup raises, or the AI step raises, or the merge
step raises; quote-internal failures and news-fetch failures never abort —
a news change leaves the entire result unchanged. -/
theorem abort_conditions_iff (cfg : Config) (env : TickerEnv) (old : Option JVal)
    (tid : String) :
    (get_stock_data cfg env old tid = none ↔
      (quoteBlock env).1 = 0 ∨ env.hist1y.isOk = false ∨ env.info.isOk = false ∨
      (aiE cfg env tid).isOk = false ∨ (mergeE cfg env old tid).isOk = false) ∧
    (∀ v, get_stock_data cfg (setNews env v) old tid = get_stock_data cfg env old tid) := by
  refine ⟨⟨?_, ?_⟩, fun v => rfl⟩
  · intro h
    by_contra hc
    push_neg at hc
    obtain ⟨n1, n2, n3, n4, n5⟩ := hc
    have hh : env.hist1y = .ok (rowsOf env) := by
      cases he : env.hist1y with
      | error e => rw [he] at n2; simp [Except.isOk, Except.toBool] at n2
      | ok r => simp [rowsOf, he]
    have hi : env.info = .ok (infoOf env) := by
      cases he : env.info with
      | error e => rw [he] at n3; simp [Except.isOk, Except.toBool] at n3
      | ok r => simp [infoOf, he]
    have hAI : aiE cfg env tid = .ok (aiPairE cfg env tid) := by
      cases hae : aiE cfg env tid with
      | error e => rw [hae] at n4; simp [Except.isOk, Except.toBool] at n4
      | ok aip => unfold aiPairE; rw [hae]
    cases hme : mergeE cfg env old tid with
    | error e => rw [hme] at n5; simp [Except.isOk, Except.toBool] at n5
    | ok r =>
        have := gsd_some_of_stages cfg env old tid r n1 hh hi hAI hme
        rw [h] at this
        exact Option.noConfusion this
  · intro h
    rcases h with h | h | h | h | h
    · exact gsd_none_of_price0 cfg env old tid h
    · cases he : env.hist1y with
      | error e => cases e; exact gsd_none_of_hist1yErr cfg env old tid he
      | ok r => rw [he] at h; simp [Except.isOk, Except.toBool] at h
    · cases he : env.info with
      | error e => cases e; exact gsd_none_of_infoErr cfg env old tid he
      | ok r => rw [he] at h; simp [Except.isOk, Except.toBool] at h
    · cases he : aiE cfg env tid with
      | error e => cases e; exact gsd_none_of_aiErr cfg env old tid he
      | ok p => rw [he] at h; simp [Except.isOk, Except.toBool] at h
    · cases he : mergeE cfg env old tid with
      | error e => cases e; exact gsd_none_of_mergeErr cfg env old tid he
      | ok r => rw [he] at h; simp [Except.isOk, Except.toBool] at h

/-! A concrete successful run, used as the witness scenario for C1, C6, C9. -/

/-- One year of daily history: two November rows, one December, one January. -/
def rowsW : List ((ℕ × ℕ) × ℚ) :=
  [((2023, 11), 100), ((2023, 11), 101), ((2023, 12), 102), ((2024, 1), 10)]

/-- AI response carrying its own river dates/price arrays and a pe20 band. -/
def aiW : JVal := .obj
  [("financials", .obj
    [("valuation", .obj
      [("pe_river_data", .obj
        [("dates", .arr [.str "1999-01"]),
         ("price", .arr [.num 1]),
         ("pe20", .arr [.num 7])])])])]

/-- Configuration: key set, one model, fenced response parsing to `aiW`. -/
def cfgW : Config :=
  ⟨true, ["models/m1"], fun _ _ => .ok "RESP",
   fun s => if s = "RESP" then some aiW else none⟩

/-- Environment: quote 550/540, news present, a year of history, info set. -/
def envW : TickerEnv :=
  ⟨.ok (550, 540), .ok [], .ok [("2024-01-02", "headline")], .ok rowsW,
   .ok (some "TSMC", some "5.5"), "2024-06-01 10:00"⟩

/-- Previous record with user annotations. -/
def oldW : JVal := .obj
  [("id", .str "2330"), ("name", .str "xx"),
   ("category", .str "core holding"), ("memo", .str "watch for earnings")]

/-- Parsed value of the rounded change-percent string "+1.85". -/
def pW : ℚ := (parseFloatQ "+1.85").getD 0

lemma pW_val : pW = 37 / 20 := by
  rw [show pW = (1 : ℚ) * (((1 : ℕ) : ℚ) + ((85 : ℕ) : ℚ) / (10 : ℚ) ^ (2 : ℕ)) from rfl]
  push_cast
  norm_num

lemma quoteW_val : quoteBlock envW = (550, 540, "+1.85%") := by
  rw [show quoteBlock envW = (550, 540, fmtSigned2 (((550:ℚ) - 540) / 540 * 100) ++ "%") from rfl,
    pct550_eval]
  rfl

/-- The record the run produces (computed leaves kept as expressions). -/
def recW : JVal := .obj
  [("id", .str "2330"),
   ("name", .str "TSMC"),
   ("category", .str "core holding"),
   ("lastUpdated", .str "2024-06-01 10:00"),
   ("ai_model", .str "m1"),
   ("memo", .str "watch for earnings"),
   ("basicInfo", .obj
     [("price", .str "550.00"),
      ("change", .str (fmtSigned2 (550 - 550 / (1 + pW / 100)))),
      ("changePercent", .str "+1.85%")]),
   ("industry", .obj []),
   ("news_events", .obj [("news", .arr []), ("calendar", .arr [])]),
   ("financials", .obj
     [("eps_table", .arr []),
      ("revenue_trend", .arr []),
      ("valuation", .obj
        [("pe_status", .str "-"),
         ("pb", .str "5.5"),
         ("roe", .str "-"),
         ("pe_river_data", .obj
           [("dates", .arr [.str "2023-11", .str "2023-12", .str "2024-01"]),
            ("price", .arr ((chartPrices rowsW).map .num)),
            ("pe20", .arr [.num 7]),
            ("pe16", .arr []),
            ("pe12", .arr [])])])]),
   ("technical", .obj [("signal_light", .str "stable")]),
   ("dividend", .obj [])]

lemma mergeW_eval : mergeE cfgW envW (some oldW) "2330.TW" = .ok recW := by
  have hif : ¬ (1 + pW / 100 = 0) := by rw [pW_val]; norm_num
  unfold mergeE
  rw [quoteW_val]
  show mergeRecord aiW (some oldW) "2330" "TSMC" "2024-06-01 10:00" "m1" "+1.85%" "5.5" 550
      (chartDatesE envW) (chartPricesE envW) = .ok recW
  have step1 : mergeRecord aiW (some oldW) "2330" "TSMC" "2024-06-01 10:00" "m1" "+1.85%" "5.5"
      550 (chartDatesE envW) (chartPricesE envW) =
      (if 1 + pW / 100 = 0 then Except.error () else .ok recW) := rfl
  rw [step1, if_neg hif]

theorem gsdW_eval : get_stock_data cfgW envW (some oldW) "2330.TW" = some recW :=
  gsd_some_of_stages cfgW envW (some oldW) "2330.TW" recW
    (by rw [show (quoteBlock envW).1 = 550 from rfl]; norm_num) rfl rfl rfl mergeW_eval

/-- Claim C1 witness: in the concrete run the AI supplied its own river
dates/price ("1999-01"), yet the persisted river carries the market series
("2023-11".."2024-01") with the AI band pe20 and empty pe16/pe12. -/
theorem river_ground_truth_witness :
    get_stock_data cfgW envW (some oldW) "2330.TW" = some recW ∧
    riverOf aiW = some (.obj
      [("dates", .arr [.str "1999-01"]), ("price", .arr [.num 1]),
       ("pe20", .arr [.num 7])]) ∧
    riverOf recW = some (.obj
      [("dates", .arr ((chartDatesE envW).map .str)),
       ("price", .arr ((chartPricesE envW).map .num)),
       ("pe20", bandE cfgW envW "2330.TW" "pe20"),
       ("pe16", bandE cfgW envW "2330.TW" "pe16"),
       ("pe12", bandE cfgW envW "2330.TW" "pe12")]) ∧
    (chartDatesE envW).map JVal.str = [.str "2023-11", .str "2023-12", .str "2024-01"] ∧
    bandE cfgW envW "2330.TW" "pe20" = .arr [.num 7] ∧
    bandE cfgW envW "2330.TW" "pe16" = .arr [] :=
  ⟨gsdW_eval, rfl, river_ground_truth cfgW envW (some oldW) "2330.TW" recW gsdW_eval,
   rfl, rfl, rfl⟩

/-- Claim C6 witness: the previous record's "core holding" category and
"watch for earnings" memo survive a successful run with differing AI
output. -/
theorem category_memo_carryover_witness :
    get_stock_data cfgW envW (some oldW) "2330.TW" = some recW ∧
    jfield oldW "category" = some (.str "core holding") ∧
    jfield oldW "memo" = some (.str "watch for earnings") ∧
    jfield recW "category" = some (.str "core holding") ∧
    jfield recW "memo" = some (.str "watch for earnings") := by
  refine ⟨gsdW_eval, rfl, rfl, ?_, ?_⟩
  · exact (category_memo_carryover cfgW envW (some oldW) "2330.TW" recW gsdW_eval).2.1
      [("id", .str "2330"), ("name", .str "xx"), ("category", .str "core holding"),
       ("memo", .str "watch for earnings")] (.str "core holding") rfl rfl
  · exact (category_memo_carryover cfgW envW (some oldW) "2330.TW" recW gsdW_eval).2.2.1
      [("id", .str "2330"), ("name", .str "xx"), ("category", .str "core holding"),
       ("memo", .str "watch for earnings")] (.str "watch for earnings") rfl rfl

lemma changeW_val : fmtSigned2 (550 - 550 / (1 + pW / 100)) = "+9.99" := by
  rw [pW_val,
    show (550 : ℚ) - 550 / (1 + (37 / 20 : ℚ) / 100) =
      Rat.mk' 20350 2037 (by decide) (by decide) from by
        rw [Rat.mk'_eq_divInt, Rat.divInt_eq_div]; norm_num]
  rfl

/-- Claim C9 witness: quote 550/540 rounds to "+1.85%"; the parsed percent
is 37/20; the back-derived absolute change renders "+9.99", while the direct
price − previous close difference would render "+10.00". -/
theorem change_back_derivation_witness :
    get_stock_data cfgW envW (some oldW) "2330.TW" = some recW ∧
    quoteBlock envW = (550, 540, "+1.85%") ∧
    pctParsedE envW = 37 / 20 ∧
    jfield recW "basicInfo" = some (.obj
      [("price", .str (fmt2 (quoteBlock envW).1)),
       ("change", .str (fmtSigned2 ((quoteBlock envW).1 -
          (quoteBlock envW).1 / (1 + pctParsedE envW / 100)))),
       ("changePercent", .str (quoteBlock envW).2.2)]) ∧
    jfield recW "basicInfo" = some (.obj
      [("price", .str "550.00"), ("change", .str "+9.99"),
       ("changePercent", .str "+1.85%")]) ∧
    fmtSigned2 ((550 : ℚ) - 540) = "+10.00" ∧
    ("+9.99" : String) ≠ "+10.00" := by
  have hpE : pctParsedE envW = 37 / 20 := by
    unfold pctParsedE
    rw [quoteW_val]
    exact (show (parseFloatQ (pyStripChar '%' (((550 : ℚ), (540 : ℚ), "+1.85%").2.2))).getD 0 = pW
      from rfl).trans pW_val
  refine ⟨gsdW_eval, quoteW_val, hpE,
    (change_back_derivation cfgW envW (some oldW) "2330.TW" recW gsdW_eval).2.1, ?_, ?_, by decide⟩
  · rw [show jfield recW "basicInfo" = some (.obj
        [("price", .str "550.00"),
         ("change", .str (fmtSigned2 (550 - 550 / (1 + pW / 100)))),
         ("changePercent", .str "+1.85%")]) from rfl, changeW_val]
  · rw [show (550 : ℚ) - 540 = Rat.mk' 10 1 (by decide) (by decide) from by
        rw [Rat.mk'_eq_divInt, Rat.divInt_eq_div]; norm_num]
    rfl
